import Mathlib

/-!
Verification development for the two-channel irrigation controller
(src/arduino_irrigation/arduino_irrigation.ino).

The sketch is embedded shallowly: every global the controller mutates becomes a
field of an explicit state record, each C function becomes a Lean function on
that record, and machine integers are modelled as Nat/Int with the C conversion
rules written out (`% 256` for uint8_t, `% 65536` for uint16_t, truncating
division `Int.tdiv` for C int division).  Hardware side effects (digitalWrite,
serial output) either are irrelevant to the properties below or are modelled as
explicit outputs (emitted frames, recorded samples).
-/

/-- Default report interval in ms (line 80 of the sketch). -/
def C_REPORT_INTERVAL : Nat := 4000

/-- Full valve opening travel time in ms (line 81). -/
def C_VALVE_OPEN_TIME : Int := 4100

/-- Full valve closing travel time in ms (line 82). -/
def C_VALVE_CLOSE_TIME : Int := 4100

/-- Number of soil moisture sensors (line 85). -/
def C_MOIST_SENS_AMOUNT : Nat := 16

/-- Documented maximum flow rate in L/min (line 87). -/
def C_MAX_FLOW_RATE : ℚ := 35

/-- Flow sensor calibration, pulses per second per L/min: 7.71 (line 88). -/
def C_FLOW_CALIBRATION : ℚ := 771 / 100

/-- The controller state: all globals of the sketch that the valve control and
protocol paths mutate.  `targetValvePos0/1` are `uint8_t` (kept `< 256` by the
call-site casts), `reportInterval` is `uint16_t`, `targetValvePosMsec0/1` are
`long`, `motorState0/1` are `int` with the encoding 0 = stop, -1 = closing,
1 = opening (comment at line 124). -/
structure MachineState where
  targetValvePos0 : Nat
  targetValvePos1 : Nat
  reportInterval : Nat
  targetValvePosMsec0 : Int
  targetValvePosMsec1 : Int
  motorState0 : Int
  motorState1 : Int
deriving DecidableEq, Repr

/-- `setMotor(which, direction)` (lines 375-408): records the direction in
`motorState0/1`.  The accompanying `digitalWrite` calls drive the motor pins
and carry no further machine state. -/
def setMotor (s : MachineState) (which : Fin 2) (direction : Int) : MachineState :=
  if which = 0 then { s with motorState0 := direction }
  else { s with motorState1 := direction }

/-- `setValve(which, percentage)` (lines 286-334).  `percentage` is the
`uint8_t` parameter.  The direction is chosen by comparing with the channel's
current target, the run time by the `switch(percentage)` at lines 317-327:
full travel plus 2000 ms of overshoot for 0 and 100, otherwise
`(turnLength / 100) * percentageChange` in C int arithmetic. -/
def setValve (s : MachineState) (which : Fin 2) (percentage : Nat) : MachineState :=
  let selectedPerc : Nat := if which = 0 then s.targetValvePos0 else s.targetValvePos1
  let direction : Int :=
    if selectedPerc < percentage then 1
    else if percentage < selectedPerc then -1
    else 0
  let turnLength : Int := if direction = -1 then C_VALVE_CLOSE_TIME else C_VALVE_OPEN_TIME
  let percentageChange : Int := ((selectedPerc : Int) - (percentage : Int)).natAbs
  let msec : Int :=
    if percentage = 0 then C_VALVE_CLOSE_TIME + 2000
    else if percentage = 100 then C_VALVE_OPEN_TIME + 2000
    else (turnLength.tdiv 100) * percentageChange
  let s' :=
    if which = 0 then
      { s with targetValvePosMsec0 := msec, targetValvePos0 := percentage }
    else
      { s with targetValvePosMsec1 := msec, targetValvePos1 := percentage }
  setMotor s' which direction

/-- The four limit-switch `digitalRead` results consumed by `checkValves`
(lines 353-371).  The switches are wired with pull-ups, so a reading of
`false` (LOW) means the switch is asserted. -/
structure SwitchReads where
  closeRead0 : Bool
  openRead0 : Bool
  closeRead1 : Bool
  openRead1 : Bool
deriving DecidableEq, Repr

/-- The channel-0 count-down step of `checkValves()` (lines 340-344): while
the motor runs and time remains, subtract the elapsed time; once the
remaining time is non-positive with the motor still running, stop the motor
(the remaining time itself is not touched by this branch). -/
def countdown0 (delta : Int) (s : MachineState) : MachineState :=
  if 0 < s.targetValvePosMsec0 ∧ s.motorState0 ≠ 0 then
    { s with targetValvePosMsec0 := s.targetValvePosMsec0 - delta }
  else if s.targetValvePosMsec0 ≤ 0 ∧ s.motorState0 ≠ 0 then setMotor s 0 0
  else s

/-- The channel-1 count-down step of `checkValves()` (lines 346-350). -/
def countdown1 (delta : Int) (s : MachineState) : MachineState :=
  if 0 < s.targetValvePosMsec1 ∧ s.motorState1 ≠ 0 then
    { s with targetValvePosMsec1 := s.targetValvePosMsec1 - delta }
  else if s.targetValvePosMsec1 ≤ 0 ∧ s.motorState1 ≠ 0 then setMotor s 1 0
  else s

/-- Limit-switch check `!digitalRead(PIN_VALVE_CLOSE_0) && motorState0 == -1`
(lines 353-356). -/
def limitClose0 (r : SwitchReads) (s : MachineState) : MachineState :=
  if r.closeRead0 = false ∧ s.motorState0 = -1 then
    { setMotor s 0 0 with targetValvePosMsec0 := 0 }
  else s

/-- Limit-switch check `!digitalRead(PIN_VALVE_OPEN_0) && motorState0 == 1`
(lines 358-361). -/
def limitOpen0 (r : SwitchReads) (s : MachineState) : MachineState :=
  if r.openRead0 = false ∧ s.motorState0 = 1 then
    { setMotor s 0 0 with targetValvePosMsec0 := 0 }
  else s

/-- Limit-switch check `!digitalRead(PIN_VALVE_CLOSE_1) && motorState1 == -1`
(lines 363-366). -/
def limitClose1 (r : SwitchReads) (s : MachineState) : MachineState :=
  if r.closeRead1 = false ∧ s.motorState1 = -1 then
    { setMotor s 1 0 with targetValvePosMsec1 := 0 }
  else s

/-- Limit-switch check `!digitalRead(PIN_VALVE_OPEN_1) && motorState1 == 1`
(lines 368-371). -/
def limitOpen1 (r : SwitchReads) (s : MachineState) : MachineState :=
  if r.openRead1 = false ∧ s.motorState1 = 1 then
    { setMotor s 1 0 with targetValvePosMsec1 := 0 }
  else s

/-- `checkValves()` (lines 337-372) for one tick with elapsed time `delta`:
first the count-down/stop logic for each channel (lines 340-350), then the
four limit-switch checks, all in source order. -/
def checkValves (s : MachineState) (delta : Int) (r : SwitchReads) : MachineState :=
  limitOpen1 r (limitClose1 r (limitOpen0 r (limitClose0 r
    (countdown1 delta (countdown0 delta s)))))

/-- An inbound JSON object, modelled as its list of members restricted to
integer values (the only value shape `recieveStates` consumes through
`getJsonKeyValueAsInt`).  Member order is lookup order. -/
def JsonDoc : Type := List (String × Int)

/-- `doc.getMember(key)` (line 502): the first member with the given key, or
none (a null variant) when the key is absent. -/
def getMember (doc : JsonDoc) (key : String) : Option Int :=
  (List.find? (fun kv => kv.1 = key) doc).map (fun kv => kv.2)

/-- `getJsonKeyValueAsInt(doc, key, defaultVal)` (lines 501-505): the member's
value as a C `int` when the key is present, otherwise `defaultVal`. -/
def getJsonKeyValueAsInt (doc : JsonDoc) (key : String) (defaultVal : Int) : Int :=
  match getMember doc key with
  | some n => n
  | none => defaultVal

/-- One serial input attempt, as seen by `recieveStates` (lines 244-274):
no bytes pending, a structural JSON parse failure with the parser's
diagnostic, or a successfully parsed object. -/
inductive RxResult where
  | noData
  | parseFail (msg : String)
  | parsed (doc : JsonDoc)

/-- A diagnostic frame written to the serial port: `printError` (lines
478-486) emits a one-field error object, `printDebug` (lines 489-497) a
one-field debug object. -/
inductive OutFrame where
  | error (msg : String)
  | debug (msg : String)
deriving DecidableEq, Repr

/-- `recieveStates()` (lines 244-274) together with the frames it emits.
On parse failure it calls `printError(err.c_str())` and returns with the state
untouched (the condition `!err == DeserializationError::Ok` at line 251
evaluates to true exactly when parsing failed).  On success it reads
`targetValvePos0`, `targetValvePos1` and `reportInterval`, stores the
interval through the `uint16_t` global with the below-1000 default rule
(line 260), and calls `setValve` for each channel whose decoded int differs
from the current `uint8_t` target, the argument cast to `uint8_t`. -/
def recieveStates (s : MachineState) (rx : RxResult) : MachineState × List OutFrame :=
  match rx with
  | .noData => (s, [])
  | .parseFail msg => (s, [.error msg])
  | .parsed doc =>
    let valvePos0 : Int := getJsonKeyValueAsInt doc "targetValvePos0" (s.targetValvePos0 : Int)
    let valvePos1 : Int := getJsonKeyValueAsInt doc "targetValvePos1" (s.targetValvePos1 : Int)
    let ri : Nat := ((getJsonKeyValueAsInt doc "reportInterval" (s.reportInterval : Int)) % 65536).toNat
    let ri : Nat := if 1000 ≤ ri then ri else C_REPORT_INTERVAL
    let s1 := { s with reportInterval := ri }
    let s2 :=
      if valvePos0 = (s.targetValvePos0 : Int) then s1
      else setValve s1 0 ((valvePos0 % 256).toNat)
    let s3 :=
      if valvePos1 = (s.targetValvePos1 : Int) then s2
      else setValve s2 1 ((valvePos1 % 256).toNat)
    (s3, [])

/-- An idealized IEEE-754 value: a finite value carried exactly as a rational,
the two infinities, or NaN.  Finite arithmetic is exact (rounding of finite
results is not modelled); the special values follow the IEEE rules, which for
the operations below involve no rounding at all. -/
inductive FVal where
  | fin (q : ℚ)
  | inf
  | negInf
  | nan
deriving DecidableEq

/-- IEEE multiplication on the idealized values. -/
def FVal.mul : FVal → FVal → FVal
  | .nan, _ => .nan
  | _, .nan => .nan
  | .fin a, .fin b => .fin (a * b)
  | .fin a, .inf => if 0 < a then .inf else if a < 0 then .negInf else .nan
  | .inf, .fin b => if 0 < b then .inf else if b < 0 then .negInf else .nan
  | .fin a, .negInf => if 0 < a then .negInf else if a < 0 then .inf else .nan
  | .negInf, .fin b => if 0 < b then .negInf else if b < 0 then .inf else .nan
  | .inf, .inf => .inf
  | .inf, .negInf => .negInf
  | .negInf, .inf => .negInf
  | .negInf, .negInf => .inf

/-- IEEE division on the idealized values; in particular a positive finite
value divided by (positive) zero is `+inf` and `0 / 0` is NaN. -/
def FVal.div : FVal → FVal → FVal
  | .nan, _ => .nan
  | _, .nan => .nan
  | .fin a, .fin b =>
    if b = 0 then (if 0 < a then .inf else if a < 0 then .negInf else .nan)
    else .fin (a / b)
  | .inf, .fin b => if 0 ≤ b then .inf else .negInf
  | .negInf, .fin b => if 0 ≤ b then .negInf else .inf
  | .fin _, .inf => .fin 0
  | .fin _, .negInf => .fin 0
  | .inf, .inf => .nan
  | .inf, .negInf => .nan
  | .negInf, .inf => .nan
  | .negInf, .negInf => .nan

/-- The flow-rate conversion of `updateFlowRate()` (lines 436-437) for both
channels: `((1000.0 / reportDelta) * pulseCountN) / C_FLOW_CALIBRATION`,
evaluated in the idealized float arithmetic.  `reportDelta` is the C `int`
global, the pulse counts are the sampled `byte` counters.  There is no guard
on `reportDelta` in the source. -/
def updateFlowRate (reportDelta : Int) (pulseCount0 pulseCount1 : Nat) : FVal × FVal :=
  (FVal.div
     (FVal.mul (FVal.div (FVal.fin 1000) (FVal.fin (reportDelta : ℚ)))
       (FVal.fin (pulseCount0 : ℚ)))
     (FVal.fin C_FLOW_CALIBRATION),
   FVal.div
     (FVal.mul (FVal.div (FVal.fin 1000) (FVal.fin (reportDelta : ℚ)))
       (FVal.fin (pulseCount1 : ℚ)))
     (FVal.fin C_FLOW_CALIBRATION))

/-- `pulseInterrupt0()` / `pulseInterrupt1()` (lines 468-475): one interrupt
firing increments the `volatile byte` counter, i.e. adds one modulo 256. -/
def pulseInterrupt0 (pulseCount : Nat) : Nat :=
  (pulseCount + 1) % 256

/-- The `byte` counter after `n` interrupt firings starting from a freshly
reset counter. -/
def countAfter : Nat → Nat
  | 0 => 0
  | n + 1 => pulseInterrupt0 (countAfter n)

/-- Events of the flow pipeline: the two interrupt handlers, and the
micro-steps of `updateFlowRate()` (lines 431-445) in their source order.
`detachAttempt` models `setInterrupts(false)`: the sketch passes the ISR
function pointers to `detachInterrupt` (lines 462-463) where the Arduino API
takes an interrupt number (compare the attach branch, lines 459-460, which
correctly passes `digitalPinToInterrupt(pin)`), so the flow interrupts are
never actually detached and pulse delivery continues; the event therefore
leaves the state unchanged, and `pulse0`/`pulse1` may fire at any point of
the trace.  `read0`/`read1` are the `flowRate[N] = ...pulseCountN...`
assignments (lines 436-437), recorded as the sampled counts;
`reset0`/`reset1` are the counter resets (lines 440-441); `attach` is the
final `setInterrupts(true)` (line 444). -/
inductive FlowEv where
  | pulse0
  | pulse1
  | detachAttempt
  | read0
  | read1
  | reset0
  | reset1
  | attach
deriving DecidableEq, Repr

/-- State of the flow pipeline: the two `volatile byte` counters and, per
channel, the list of counts sampled into `flowRate[N]` so far. -/
structure FlowSt where
  pulseCount0 : Nat
  pulseCount1 : Nat
  samples0 : List Nat
  samples1 : List Nat
deriving DecidableEq, Repr

/-- The all-zero initial flow state (counters start at 0, nothing sampled). -/
def initFlowSt : FlowSt :=
  { pulseCount0 := 0, pulseCount1 := 0, samples0 := [], samples1 := [] }

/-- One event of the flow pipeline. -/
def flowStep (s : FlowSt) (e : FlowEv) : FlowSt :=
  match e with
  | .pulse0 => { s with pulseCount0 := (s.pulseCount0 + 1) % 256 }
  | .pulse1 => { s with pulseCount1 := (s.pulseCount1 + 1) % 256 }
  | .detachAttempt => s
  | .attach => s
  | .read0 => { s with samples0 := s.samples0 ++ [s.pulseCount0] }
  | .read1 => { s with samples1 := s.samples1 ++ [s.pulseCount1] }
  | .reset0 => { s with pulseCount0 := 0 }
  | .reset1 => { s with pulseCount1 := 0 }

/-- A trace of interleaved interrupt firings and sample micro-steps. -/
def flowRun (s : FlowSt) (t : List FlowEv) : FlowSt :=
  t.foldl flowStep s

/-- `SOILCALIBRATION(x)`, i.e. `map(x, 15000, 9000, 0, 100)` (line 98):
`(x - 15000) * (100 - 0) / (9000 - 15000) + 0` in C integer arithmetic
(truncating division). -/
def SOILCALIBRATION (x : Int) : Int :=
  ((x - 15000) * (100 - 0)).tdiv (9000 - 15000) + 0

/-- The body of the sensor-reading loop of `updateSoilHumidity()` (lines
414-419) for index `i < 4`: writes entries `i`, `i+4`, `i+8`, `i+12` of the
`uint16_t` array from the four ADCs' channel-`i` readings. -/
def soilWrite (reads : Fin 4 → Fin 4 → Int) (soil : Fin 16 → Nat) (i : Fin 4) :
    Fin 16 → Nat :=
  fun j =>
    if j = ⟨i.val, by omega⟩ then (SOILCALIBRATION (reads 0 i) % 65536).toNat
    else if j = ⟨i.val + 4, by omega⟩ then (SOILCALIBRATION (reads 1 i) % 65536).toNat
    else if j = ⟨i.val + 8, by omega⟩ then (SOILCALIBRATION (reads 2 i) % 65536).toNat
    else if j = ⟨i.val + 12, by omega⟩ then (SOILCALIBRATION (reads 3 i) % 65536).toNat
    else soil j

/-- The sensor-reading loop `for(int i; i < C_MOIST_SENS_AMOUNT / 4; i++)`
(line 414) run from initial index value `i`.  The index is declared WITHOUT
an initializer in the source, so `i` here stands for the indeterminate
initial value the loop actually starts from (non-negative values; a negative
initial value would write out of array bounds, further undefined behaviour
not modelled). -/
def soilPass (reads : Fin 4 → Fin 4 → Int) (soil : Fin 16 → Nat) (i : Nat) :
    Fin 16 → Nat :=
  ((List.finRange 4).drop i).foldl (soilWrite reads) soil

/-- The averaging loop of `updateSoilHumidity()` (lines 422-426): a running
two-value average in `uint16_t` arithmetic, seeded with entry 0. -/
def avgSoil (soil : Fin 16 → Nat) : Nat :=
  ((List.finRange 16).drop 1).foldl (fun acc j => ((acc + soil j) % 65536) / 2) (soil 0)

/-- `updateSoilHumidity()` (lines 412-427), parameterized by the
indeterminate initial value `i` of the uninitialized loop index: the updated
array and the `avgSoilHumidity` computed from it. -/
def updateSoilHumidity (i : Nat) (reads : Fin 4 → Fin 4 → Int) (soil : Fin 16 → Nat) :
    (Fin 16 → Nat) × Nat :=
  let soil' := soilPass reads soil i
  (soil', avgSoil soil')

/-- Limit-switch readings with no switch asserted (all inputs pulled high). -/
def noSwitch : SwitchReads :=
  { closeRead0 := true, openRead0 := true, closeRead1 := true, openRead1 := true }

/-- A quiescent controller state before a command arrives: both valves idle at
targets 10 and 20, default report interval. -/
def priorState : MachineState :=
  { targetValvePos0 := 10, targetValvePos1 := 20, reportInterval := 4000,
    targetValvePosMsec0 := 0, targetValvePosMsec1 := 0, motorState0 := 0, motorState1 := 0 }

/-- An interleaving in which one pulse fires before the sample and a second
fires inside the read-reset section, between the `flowRate[0]` read (line 436)
and the `pulseCount0 = 0` reset (line 440); the pulse is delivered because
`setInterrupts(false)` fails to detach the interrupts (see `FlowEv`).
A second, quiet sample follows. -/
def lostPulseTrace : List FlowEv :=
  [.pulse0, .detachAttempt, .read0, .read1, .pulse0, .reset0, .reset1, .attach,
   .detachAttempt, .read0, .read1, .reset0, .reset1, .attach]

/-- The target percentage of a channel. -/
def targetOf (s : MachineState) (which : Fin 2) : Nat :=
  if which = 0 then s.targetValvePos0 else s.targetValvePos1

/-- The motor state of a channel. -/
def motorStateOf (s : MachineState) (which : Fin 2) : Int :=
  if which = 0 then s.motorState0 else s.motorState1

/-- The remaining run time of a channel. -/
def msecOf (s : MachineState) (which : Fin 2) : Int :=
  if which = 0 then s.targetValvePosMsec0 else s.targetValvePosMsec1

/-- A state in mid-travel: valve 0 is opening with 5 ms remaining, valve 1
idle. -/
def crossTickState : MachineState :=
  { targetValvePos0 := 50, targetValvePos1 := 20, reportInterval := 4000,
    targetValvePosMsec0 := 5, targetValvePosMsec1 := 0, motorState0 := 1, motorState1 := 0 }

/-- A state whose channel-0 countdown already overran: the motor still
opening with -5 ms remaining (reached by a tick that crossed zero while
running). -/
def overrunState : MachineState :=
  { targetValvePos0 := 50, targetValvePos1 := 20, reportInterval := 4000,
    targetValvePosMsec0 := -5, targetValvePosMsec1 := 0, motorState0 := 1, motorState1 := 0 }

/-- Limit-switch readings with only the channel-0 open switch asserted. -/
def openAsserted0 : SwitchReads :=
  { closeRead0 := true, openRead0 := false, closeRead1 := true, openRead1 := true }

/-- A state with valve 0 opening and 7 ms remaining. -/
def openingState : MachineState :=
  { targetValvePos0 := 50, targetValvePos1 := 20, reportInterval := 4000,
    targetValvePosMsec0 := 7, targetValvePosMsec1 := 0, motorState0 := 1, motorState1 := 0 }

/-- A stale soil-humidity array (all entries 7) left from an earlier cycle. -/
def staleSoil : Fin 16 → Nat := fun _ => 7

/-- ADC raw readings, all 9000 (which calibrates to exactly 100). -/
def adcReadsConst : Fin 4 → Fin 4 → Int := fun _ _ => 9000

/-- C1: the flow read-out is NOT atomic with respect to the pulse interrupts.
`setInterrupts(false)` passes the ISR function pointers to `detachInterrupt`
(lines 462-463) instead of the interrupt numbers, so pulse delivery continues
during the read-reset section of `updateFlowRate`.  On `lostPulseTrace`, two
interrupts fire, yet the two samples read 1 and 0 pulses: the pulse delivered
between the read and the reset is erased by the reset and lost, so the sum of
pulse counts across the samples (1) differs from the interrupts fired (2),
with no pulses left in the counter. -/
theorem flow_readout_loses_pulse :
    (flowRun initFlowSt lostPulseTrace).samples0 = [1, 0] ∧
    lostPulseTrace.count FlowEv.pulse0 = 2 ∧
    (flowRun initFlowSt lostPulseTrace).pulseCount0 = 0 ∧
    (flowRun initFlowSt lostPulseTrace).samples0.sum ≠ lostPulseTrace.count FlowEv.pulse0 := by
  decide

/-- C2: for channel `which` with current target `c = targetOf s which` and a
commanded percent `p` in 0-100 with `p ≠ c`, `setValve` drives the motor with
direction Open (1) iff `p > c` and Close (-1) iff `p < c`; for `p` exactly 0
or 100 the remaining run time is the full calibrated travel duration plus the
fixed overshoot margin, 4100 + 2000 ms, and for every intermediate `p` it is
`fullDuration * |p - c| / 100` (= 4100·|p−c|/100, exactly what the C code's
`(turnLength / 100) * percentageChange` computes, as 4100 is divisible
by 100). -/
theorem setValve_direction_and_duration (s : MachineState) (which : Fin 2) (p : Nat)
    (hp : p ≤ 100) (hc : targetOf s which ≤ 100) (hne : p ≠ targetOf s which) :
    (motorStateOf (setValve s which p) which = 1 ↔ targetOf s which < p) ∧
    (motorStateOf (setValve s which p) which = -1 ↔ p < targetOf s which) ∧
    ((p = 0 ∨ p = 100) → msecOf (setValve s which p) which = 4100 + 2000) ∧
    (p ≠ 0 → p ≠ 100 →
      msecOf (setValve s which p) which =
        4100 * (((targetOf s which : Int) - (p : Int)).natAbs : Int) / 100) := by
  fin_cases which <;>
    simp only [targetOf, motorStateOf, msecOf, setValve, setMotor,
      C_VALVE_OPEN_TIME, C_VALVE_CLOSE_TIME] at * <;>
    norm_num at * <;>
    split_ifs with h1 h2 h3 h4 h5 h6 <;>
    simp_all [show Int.tdiv (4100 : Int) 100 = 41 from by decide] <;>
    omega

/-- Witness for `setValve_direction_and_duration`: commanding valve 0 from
target 10 to 50 starts opening for 4100·40/100 = 1640 ms. -/
theorem setValve_direction_and_duration_witness :
    motorStateOf (setValve priorState 0 50) 0 = 1 ∧
    msecOf (setValve priorState 0 50) 0 = 1640 := by
  have h := setValve_direction_and_duration priorState 0 50 (by norm_num) (by decide) (by decide)
  refine ⟨h.1.mpr (by decide), ?_⟩
  have h2 := h.2.2.2 (by norm_num) (by norm_num)
  rw [h2]
  decide

/-- `setMotor` on channel 0 written as a record update. -/
theorem setMotor0_eq (s : MachineState) (d : Int) :
    setMotor s 0 d = { s with motorState0 := d } := rfl

/-- `setMotor` on channel 1 written as a record update. -/
theorem setMotor1_eq (s : MachineState) (d : Int) :
    setMotor s 1 d = { s with motorState1 := d } := rfl

/-- The channel-0 countdown never touches channel 1, the targets or the
report interval. -/
theorem countdown0_other (delta : Int) (s : MachineState) :
    (countdown0 delta s).motorState1 = s.motorState1 ∧
    (countdown0 delta s).targetValvePosMsec1 = s.targetValvePosMsec1 ∧
    (countdown0 delta s).targetValvePos0 = s.targetValvePos0 ∧
    (countdown0 delta s).targetValvePos1 = s.targetValvePos1 ∧
    (countdown0 delta s).reportInterval = s.reportInterval := by
  unfold countdown0
  split_ifs <;> simp [setMotor]

/-- The channel-1 countdown never touches channel 0, the targets or the
report interval. -/
theorem countdown1_other (delta : Int) (s : MachineState) :
    (countdown1 delta s).motorState0 = s.motorState0 ∧
    (countdown1 delta s).targetValvePosMsec0 = s.targetValvePosMsec0 ∧
    (countdown1 delta s).targetValvePos0 = s.targetValvePos0 ∧
    (countdown1 delta s).targetValvePos1 = s.targetValvePos1 ∧
    (countdown1 delta s).reportInterval = s.reportInterval := by
  unfold countdown1
  split_ifs <;> simp [setMotor]

/-- Channel-0 countdown while running with time remaining: subtract `delta`. -/
theorem countdown0_run (delta : Int) (s : MachineState)
    (h : s.motorState0 ≠ 0) (hm : 0 < s.targetValvePosMsec0) :
    countdown0 delta s = { s with targetValvePosMsec0 := s.targetValvePosMsec0 - delta } := by
  simp [countdown0, h, hm]

/-- Channel-0 countdown when the time is already non-positive but the motor
still runs: stop the motor, leave the remaining time alone. -/
theorem countdown0_stop (delta : Int) (s : MachineState)
    (h : s.motorState0 ≠ 0) (hm : s.targetValvePosMsec0 ≤ 0) :
    countdown0 delta s = { s with motorState0 := 0 } := by
  simp [countdown0, h, hm, show ¬ (0:Int) < s.targetValvePosMsec0 from by omega, setMotor0_eq]

/-- Channel-0 countdown is a no-op for an idle motor. -/
theorem countdown0_idle (delta : Int) (s : MachineState) (h : s.motorState0 = 0) :
    countdown0 delta s = s := by
  simp [countdown0, h]

/-- Channel-1 countdown while running with time remaining. -/
theorem countdown1_run (delta : Int) (s : MachineState)
    (h : s.motorState1 ≠ 0) (hm : 0 < s.targetValvePosMsec1) :
    countdown1 delta s = { s with targetValvePosMsec1 := s.targetValvePosMsec1 - delta } := by
  simp [countdown1, h, hm]

/-- Channel-1 countdown when the time is already non-positive. -/
theorem countdown1_stop (delta : Int) (s : MachineState)
    (h : s.motorState1 ≠ 0) (hm : s.targetValvePosMsec1 ≤ 0) :
    countdown1 delta s = { s with motorState1 := 0 } := by
  simp [countdown1, h, hm, show ¬ (0:Int) < s.targetValvePosMsec1 from by omega, setMotor1_eq]

/-- Channel-1 countdown is a no-op for an idle motor. -/
theorem countdown1_idle (delta : Int) (s : MachineState) (h : s.motorState1 = 0) :
    countdown1 delta s = s := by
  simp [countdown1, h]

/-- An asserted close-limit switch while channel 0 closes: stop and zero. -/
theorem limitClose0_hit (r : SwitchReads) (s : MachineState)
    (hr : r.closeRead0 = false) (h : s.motorState0 = -1) :
    limitClose0 r s = { s with motorState0 := 0, targetValvePosMsec0 := 0 } := by
  simp [limitClose0, hr, h, setMotor0_eq]

/-- `limitClose0` is a no-op unless the switch is asserted while closing. -/
theorem limitClose0_miss (r : SwitchReads) (s : MachineState)
    (h : ¬ (r.closeRead0 = false ∧ s.motorState0 = -1)) :
    limitClose0 r s = s := by
  unfold limitClose0
  rw [if_neg h]

/-- An asserted open-limit switch while channel 0 opens: stop and zero. -/
theorem limitOpen0_hit (r : SwitchReads) (s : MachineState)
    (hr : r.openRead0 = false) (h : s.motorState0 = 1) :
    limitOpen0 r s = { s with motorState0 := 0, targetValvePosMsec0 := 0 } := by
  simp [limitOpen0, hr, h, setMotor0_eq]

/-- `limitOpen0` is a no-op unless the switch is asserted while opening. -/
theorem limitOpen0_miss (r : SwitchReads) (s : MachineState)
    (h : ¬ (r.openRead0 = false ∧ s.motorState0 = 1)) :
    limitOpen0 r s = s := by
  unfold limitOpen0
  rw [if_neg h]

/-- An asserted close-limit switch while channel 1 closes: stop and zero. -/
theorem limitClose1_hit (r : SwitchReads) (s : MachineState)
    (hr : r.closeRead1 = false) (h : s.motorState1 = -1) :
    limitClose1 r s = { s with motorState1 := 0, targetValvePosMsec1 := 0 } := by
  simp [limitClose1, hr, h, setMotor1_eq]

/-- `limitClose1` is a no-op unless the switch is asserted while closing. -/
theorem limitClose1_miss (r : SwitchReads) (s : MachineState)
    (h : ¬ (r.closeRead1 = false ∧ s.motorState1 = -1)) :
    limitClose1 r s = s := by
  unfold limitClose1
  rw [if_neg h]

/-- An asserted open-limit switch while channel 1 opens: stop and zero. -/
theorem limitOpen1_hit (r : SwitchReads) (s : MachineState)
    (hr : r.openRead1 = false) (h : s.motorState1 = 1) :
    limitOpen1 r s = { s with motorState1 := 0, targetValvePosMsec1 := 0 } := by
  simp [limitOpen1, hr, h, setMotor1_eq]

/-- `limitOpen1` is a no-op unless the switch is asserted while opening. -/
theorem limitOpen1_miss (r : SwitchReads) (s : MachineState)
    (h : ¬ (r.openRead1 = false ∧ s.motorState1 = 1)) :
    limitOpen1 r s = s := by
  unfold limitOpen1
  rw [if_neg h]

/-- The channel-0 limit-switch checks never touch channel 1, the targets or
the report interval. -/
theorem limitCh0_other (r : SwitchReads) (s : MachineState) :
    ((limitClose0 r s).motorState1 = s.motorState1 ∧
     (limitClose0 r s).targetValvePosMsec1 = s.targetValvePosMsec1 ∧
     (limitClose0 r s).targetValvePos0 = s.targetValvePos0 ∧
     (limitClose0 r s).targetValvePos1 = s.targetValvePos1 ∧
     (limitClose0 r s).reportInterval = s.reportInterval) ∧
    ((limitOpen0 r s).motorState1 = s.motorState1 ∧
     (limitOpen0 r s).targetValvePosMsec1 = s.targetValvePosMsec1 ∧
     (limitOpen0 r s).targetValvePos0 = s.targetValvePos0 ∧
     (limitOpen0 r s).targetValvePos1 = s.targetValvePos1 ∧
     (limitOpen0 r s).reportInterval = s.reportInterval) := by
  unfold limitClose0 limitOpen0
  constructor <;> split_ifs <;> simp [setMotor]

/-- The channel-1 limit-switch checks never touch channel 0, the targets or
the report interval. -/
theorem limitCh1_other (r : SwitchReads) (s : MachineState) :
    ((limitClose1 r s).motorState0 = s.motorState0 ∧
     (limitClose1 r s).targetValvePosMsec0 = s.targetValvePosMsec0 ∧
     (limitClose1 r s).targetValvePos0 = s.targetValvePos0 ∧
     (limitClose1 r s).targetValvePos1 = s.targetValvePos1 ∧
     (limitClose1 r s).reportInterval = s.reportInterval) ∧
    ((limitOpen1 r s).motorState0 = s.motorState0 ∧
     (limitOpen1 r s).targetValvePosMsec0 = s.targetValvePosMsec0 ∧
     (limitOpen1 r s).targetValvePos0 = s.targetValvePos0 ∧
     (limitOpen1 r s).targetValvePos1 = s.targetValvePos1 ∧
     (limitOpen1 r s).reportInterval = s.reportInterval) := by
  unfold limitClose1 limitOpen1
  constructor <;> split_ifs <;> simp [setMotor]

/-- C3 counterexample: a tick of 10 ms on a channel with 5 ms remaining
drives the remaining time to -5, but the motor is NOT stopped in that same
tick (it still reads Opening, 1) and the remaining time is not cleared: the
`else if` at line 342 only fires on the NEXT call of `checkValves`. -/
theorem tick_crossing_zero_does_not_stop_same_tick :
    (checkValves crossTickState 10 noSwitch).targetValvePosMsec0 = -5 ∧
    (checkValves crossTickState 10 noSwitch).motorState0 = 1 ∧
    ¬ ((checkValves crossTickState 10 noSwitch).motorState0 = 0 ∧
       (checkValves crossTickState 10 noSwitch).targetValvePosMsec0 = 0) := by
  decide

/-- C3 (amended): on a tick with no limit switch asserted, a non-idle channel
with positive remaining time has the elapsed time subtracted and keeps
running (even if the result is ≤ 0); a non-idle channel whose remaining time
is already ≤ 0 at the start of the tick is stopped on that tick with the
remaining time left unchanged (not cleared to zero); an idle channel is
untouched.  The stop therefore happens one tick after the countdown crosses
zero, and the remaining time keeps its negative value. -/
theorem checkValves_countdown_behaviour (s : MachineState) (delta : Int) :
    (s.motorState0 ≠ 0 → 0 < s.targetValvePosMsec0 →
      (checkValves s delta noSwitch).targetValvePosMsec0 = s.targetValvePosMsec0 - delta ∧
      (checkValves s delta noSwitch).motorState0 = s.motorState0) ∧
    (s.motorState0 ≠ 0 → s.targetValvePosMsec0 ≤ 0 →
      (checkValves s delta noSwitch).motorState0 = 0 ∧
      (checkValves s delta noSwitch).targetValvePosMsec0 = s.targetValvePosMsec0) ∧
    (s.motorState0 = 0 →
      (checkValves s delta noSwitch).motorState0 = 0 ∧
      (checkValves s delta noSwitch).targetValvePosMsec0 = s.targetValvePosMsec0) ∧
    (s.motorState1 ≠ 0 → 0 < s.targetValvePosMsec1 →
      (checkValves s delta noSwitch).targetValvePosMsec1 = s.targetValvePosMsec1 - delta ∧
      (checkValves s delta noSwitch).motorState1 = s.motorState1) ∧
    (s.motorState1 ≠ 0 → s.targetValvePosMsec1 ≤ 0 →
      (checkValves s delta noSwitch).motorState1 = 0 ∧
      (checkValves s delta noSwitch).targetValvePosMsec1 = s.targetValvePosMsec1) ∧
    (s.motorState1 = 0 →
      (checkValves s delta noSwitch).motorState1 = 0 ∧
      (checkValves s delta noSwitch).targetValvePosMsec1 = s.targetValvePosMsec1) := by
  unfold checkValves
  have hlc0 : ∀ u : MachineState, limitClose0 noSwitch u = u := fun u =>
    limitClose0_miss _ _ (by simp [noSwitch])
  have hlo0 : ∀ u : MachineState, limitOpen0 noSwitch u = u := fun u =>
    limitOpen0_miss _ _ (by simp [noSwitch])
  have hlc1 : ∀ u : MachineState, limitClose1 noSwitch u = u := fun u =>
    limitClose1_miss _ _ (by simp [noSwitch])
  have hlo1 : ∀ u : MachineState, limitOpen1 noSwitch u = u := fun u =>
    limitOpen1_miss _ _ (by simp [noSwitch])
  rw [hlo1, hlc1, hlo0, hlc0]
  refine ⟨fun h hm => ?_, fun h hm => ?_, fun h => ?_, fun h hm => ?_, fun h hm => ?_, fun h => ?_⟩
  · rw [countdown0_run delta s h hm]
    exact ⟨by rw [(countdown1_other _ _).2.1], by rw [(countdown1_other _ _).1]⟩
  · rw [countdown0_stop delta s h hm]
    exact ⟨by rw [(countdown1_other _ _).1], by rw [(countdown1_other _ _).2.1]⟩
  · rw [countdown0_idle delta s h]
    exact ⟨by rw [(countdown1_other _ _).1, h], by rw [(countdown1_other _ _).2.1]⟩
  · have h1 : (countdown0 delta s).motorState1 ≠ 0 := by
      rw [(countdown0_other _ _).1]; exact h
    have h2 : 0 < (countdown0 delta s).targetValvePosMsec1 := by
      rw [(countdown0_other _ _).2.1]; exact hm
    rw [countdown1_run delta _ h1 h2]
    exact ⟨by simp [(countdown0_other delta s).2.1], by simp [(countdown0_other delta s).1]⟩
  · have h1 : (countdown0 delta s).motorState1 ≠ 0 := by
      rw [(countdown0_other _ _).1]; exact h
    have h2 : (countdown0 delta s).targetValvePosMsec1 ≤ 0 := by
      rw [(countdown0_other _ _).2.1]; exact hm
    rw [countdown1_stop delta _ h1 h2]
    exact ⟨by simp, by simp [(countdown0_other delta s).2.1]⟩
  · have h1 : (countdown0 delta s).motorState1 = 0 := by
      rw [(countdown0_other _ _).1]; exact h
    rw [countdown1_idle delta _ h1]
    exact ⟨h1, (countdown0_other delta s).2.1⟩

/-- Witness for `checkValves_countdown_behaviour` on `crossTickState` with a
10 ms tick: the run branch and the idle branch, concretely. -/
theorem checkValves_countdown_behaviour_witness :
    ((checkValves crossTickState 10 noSwitch).targetValvePosMsec0 =
       crossTickState.targetValvePosMsec0 - 10 ∧
     (checkValves crossTickState 10 noSwitch).motorState0 = crossTickState.motorState0) ∧
    (checkValves crossTickState 10 noSwitch).motorState1 = 0 := by
  have h := checkValves_countdown_behaviour crossTickState 10
  exact ⟨h.1 (by decide) (by decide), (h.2.2.2.2.2 (by decide)).1⟩

/-- C4 counterexample: with the open-limit switch asserted while channel 0
is Opening but its remaining time already negative (-5), the tick stops the
motor through the countdown branch (line 343) BEFORE the limit-switch check
runs, so the check at line 358 sees `motorState0 == 0` and never zeroes the
remaining time: it stays -5, contradicting "the remaining run time set to
zero regardless of how much time remained". -/
theorem limit_switch_leaves_negative_remainder :
    (checkValves overrunState 0 openAsserted0).motorState0 = 0 ∧
    (checkValves overrunState 0 openAsserted0).targetValvePosMsec0 = -5 ∧
    (checkValves overrunState 0 openAsserted0).targetValvePosMsec0 ≠ 0 := by
  decide

/-- C4 (amended): on every tick, a limit-switch assertion matching the
pre-tick direction of a channel whose remaining run time is still positive
immediately stops that motor and zeroes its remaining time, for any reading
of the other switches; if the remaining time is already ≤ 0 the countdown
branch stops the motor instead and the remaining time is left as it was
(see `limit_switch_leaves_negative_remainder`); an assertion while the
channel is Idle changes nothing on that channel. -/
theorem limit_switch_stop_behaviour (s : MachineState) (delta : Int) (r : SwitchReads) :
    (s.motorState0 = 1 → r.openRead0 = false → 0 < s.targetValvePosMsec0 →
      (checkValves s delta r).motorState0 = 0 ∧ (checkValves s delta r).targetValvePosMsec0 = 0) ∧
    (s.motorState0 = -1 → r.closeRead0 = false → 0 < s.targetValvePosMsec0 →
      (checkValves s delta r).motorState0 = 0 ∧ (checkValves s delta r).targetValvePosMsec0 = 0) ∧
    (s.motorState0 = 0 →
      (checkValves s delta r).motorState0 = 0 ∧
      (checkValves s delta r).targetValvePosMsec0 = s.targetValvePosMsec0) ∧
    (s.motorState1 = 1 → r.openRead1 = false → 0 < s.targetValvePosMsec1 →
      (checkValves s delta r).motorState1 = 0 ∧ (checkValves s delta r).targetValvePosMsec1 = 0) ∧
    (s.motorState1 = -1 → r.closeRead1 = false → 0 < s.targetValvePosMsec1 →
      (checkValves s delta r).motorState1 = 0 ∧ (checkValves s delta r).targetValvePosMsec1 = 0) ∧
    (s.motorState1 = 0 →
      (checkValves s delta r).motorState1 = 0 ∧
      (checkValves s delta r).targetValvePosMsec1 = s.targetValvePosMsec1) := by
  unfold checkValves
  refine ⟨fun hm hr hpos => ?_, fun hm hr hpos => ?_, fun hm => ?_,
          fun hm hr hpos => ?_, fun hm hr hpos => ?_, fun hm => ?_⟩
  · have hc0 := countdown0_run delta s (by omega) hpos
    have hm0 : (countdown1 delta (countdown0 delta s)).motorState0 = 1 := by
      rw [(countdown1_other _ _).1, hc0]; exact hm
    rw [limitClose0_miss r _ (by simp [hm0])]
    rw [limitOpen0_hit r _ hr hm0]
    constructor
    · rw [(limitCh1_other r _).2.1, (limitCh1_other r _).1.1]
    · rw [(limitCh1_other r _).2.2.1, (limitCh1_other r _).1.2.1]
  · have hc0 := countdown0_run delta s (by omega) hpos
    have hm0 : (countdown1 delta (countdown0 delta s)).motorState0 = -1 := by
      rw [(countdown1_other _ _).1, hc0]; exact hm
    rw [limitClose0_hit r _ hr hm0]
    rw [limitOpen0_miss r _ (by simp)]
    constructor
    · rw [(limitCh1_other r _).2.1, (limitCh1_other r _).1.1]
    · rw [(limitCh1_other r _).2.2.1, (limitCh1_other r _).1.2.1]
  · rw [countdown0_idle delta s hm]
    have hm0 : (countdown1 delta s).motorState0 = 0 := by
      rw [(countdown1_other _ _).1]; exact hm
    rw [limitClose0_miss r _ (by simp [hm0])]
    rw [limitOpen0_miss r _ (by simp [hm0])]
    constructor
    · rw [(limitCh1_other r _).2.1, (limitCh1_other r _).1.1, hm0]
    · rw [(limitCh1_other r _).2.2.1, (limitCh1_other r _).1.2.1, (countdown1_other _ _).2.1]
  · have h1 : (countdown0 delta s).motorState1 ≠ 0 := by
      rw [(countdown0_other _ _).1]; omega
    have h2 : 0 < (countdown0 delta s).targetValvePosMsec1 := by
      rw [(countdown0_other _ _).2.1]; exact hpos
    rw [countdown1_run delta _ h1 h2]
    have hw1 : (limitOpen0 r (limitClose0 r
        { countdown0 delta s with
          targetValvePosMsec1 := (countdown0 delta s).targetValvePosMsec1 - delta })).motorState1 = 1 := by
      rw [(limitCh0_other r _).2.1, (limitCh0_other r _).1.1]
      show (countdown0 delta s).motorState1 = 1
      rw [(countdown0_other _ _).1]; exact hm
    rw [limitClose1_miss r _ (by simp [hw1])]
    rw [limitOpen1_hit r _ hr hw1]
    exact ⟨rfl, rfl⟩
  · have h1 : (countdown0 delta s).motorState1 ≠ 0 := by
      rw [(countdown0_other _ _).1]; omega
    have h2 : 0 < (countdown0 delta s).targetValvePosMsec1 := by
      rw [(countdown0_other _ _).2.1]; exact hpos
    rw [countdown1_run delta _ h1 h2]
    have hw1 : (limitOpen0 r (limitClose0 r
        { countdown0 delta s with
          targetValvePosMsec1 := (countdown0 delta s).targetValvePosMsec1 - delta })).motorState1 = -1 := by
      rw [(limitCh0_other r _).2.1, (limitCh0_other r _).1.1]
      show (countdown0 delta s).motorState1 = -1
      rw [(countdown0_other _ _).1]; exact hm
    rw [limitClose1_hit r _ hr hw1]
    rw [limitOpen1_miss r _ (by simp)]
    exact ⟨rfl, rfl⟩
  · have h1 : (countdown0 delta s).motorState1 = 0 := by
      rw [(countdown0_other _ _).1]; exact hm
    rw [countdown1_idle delta _ h1]
    have hw1 : (limitOpen0 r (limitClose0 r (countdown0 delta s))).motorState1 = 0 := by
      rw [(limitCh0_other r _).2.1, (limitCh0_other r _).1.1]; exact h1
    rw [limitClose1_miss r _ (by simp [hw1])]
    rw [limitOpen1_miss r _ (by simp [hw1])]
    refine ⟨hw1, ?_⟩
    rw [(limitCh0_other r _).2.2.1, (limitCh0_other r _).1.2.1, (countdown0_other _ _).2.1]

/-- Witness for `limit_switch_stop_behaviour`: an asserted open-limit switch
stops opening valve 0 and zeroes its remaining 7 ms. -/
theorem limit_switch_stop_behaviour_witness :
    (checkValves openingState 3 openAsserted0).motorState0 = 0 ∧
    (checkValves openingState 3 openAsserted0).targetValvePosMsec0 = 0 := by
  have h := limit_switch_stop_behaviour openingState 3 openAsserted0
  exact h.1 (by decide) (by decide) (by decide)

/-- C6: for every inbound line that fails JSON parsing, `recieveStates` emits
exactly one `{"error": <message>}` frame carrying the parser's diagnostic and
leaves the whole controller state (targets, run times, motor states, report
interval) unchanged; the function returns normally so the loop continues. -/
theorem decode_parse_failure_emits_error_and_preserves_state
    (s : MachineState) (msg : String) :
    recieveStates s (.parseFail msg) = (s, [OutFrame.error msg]) := rfl

/-- `setValve` on channel 0 stores the commanded percentage as the target. -/
theorem setValve0_t0 (s : MachineState) (p : Nat) : (setValve s 0 p).targetValvePos0 = p := by
  simp [setValve, setMotor]

/-- `setValve` on channel 0 leaves channel 1's target alone. -/
theorem setValve0_t1 (s : MachineState) (p : Nat) :
    (setValve s 0 p).targetValvePos1 = s.targetValvePos1 := by
  simp [setValve, setMotor]

/-- `setValve` on channel 0 leaves channel 1's run time alone. -/
theorem setValve0_m1 (s : MachineState) (p : Nat) :
    (setValve s 0 p).targetValvePosMsec1 = s.targetValvePosMsec1 := by
  simp [setValve, setMotor]

/-- `setValve` on channel 0 leaves channel 1's motor alone. -/
theorem setValve0_mot1 (s : MachineState) (p : Nat) :
    (setValve s 0 p).motorState1 = s.motorState1 := by
  simp [setValve, setMotor]

/-- `setValve` on channel 0 leaves the report interval alone. -/
theorem setValve0_ri (s : MachineState) (p : Nat) :
    (setValve s 0 p).reportInterval = s.reportInterval := by
  simp [setValve, setMotor]

/-- `setValve` on channel 1 stores the commanded percentage as the target. -/
theorem setValve1_t1 (s : MachineState) (p : Nat) : (setValve s 1 p).targetValvePos1 = p := by
  simp [setValve, setMotor]

/-- `setValve` on channel 1 leaves channel 0's target alone. -/
theorem setValve1_t0 (s : MachineState) (p : Nat) :
    (setValve s 1 p).targetValvePos0 = s.targetValvePos0 := by
  simp [setValve, setMotor]

/-- `setValve` on channel 1 leaves channel 0's run time alone. -/
theorem setValve1_m0 (s : MachineState) (p : Nat) :
    (setValve s 1 p).targetValvePosMsec0 = s.targetValvePosMsec0 := by
  simp [setValve, setMotor]

/-- `setValve` on channel 1 leaves channel 0's motor alone. -/
theorem setValve1_mot0 (s : MachineState) (p : Nat) :
    (setValve s 1 p).motorState0 = s.motorState0 := by
  simp [setValve, setMotor]

/-- `setValve` on channel 1 leaves the report interval alone. -/
theorem setValve1_ri (s : MachineState) (p : Nat) :
    (setValve s 1 p).reportInterval = s.reportInterval := by
  simp [setValve, setMotor]

/-- The stored report interval after a successful decode, as a function of the
decoded `reportInterval` int (lines 259-260). -/
theorem recieveStates_ri (s : MachineState) (doc : JsonDoc) :
    (recieveStates s (.parsed doc)).1.reportInterval =
      (if 1000 ≤ ((getJsonKeyValueAsInt doc "reportInterval" (s.reportInterval : Int)) % 65536).toNat
       then ((getJsonKeyValueAsInt doc "reportInterval" (s.reportInterval : Int)) % 65536).toNat
       else C_REPORT_INTERVAL) := by
  simp only [recieveStates]
  split_ifs <;> simp_all [setValve0_ri, setValve1_ri]

/-- The stored channel-0 target after a successful decode (lines 257, 263-264):
unchanged when the decoded int equals the current target, otherwise the
decoded int cast to `uint8_t`. -/
theorem recieveStates_target0 (s : MachineState) (doc : JsonDoc) :
    (recieveStates s (.parsed doc)).1.targetValvePos0 =
      (if getJsonKeyValueAsInt doc "targetValvePos0" (s.targetValvePos0 : Int) = (s.targetValvePos0 : Int)
       then s.targetValvePos0
       else ((getJsonKeyValueAsInt doc "targetValvePos0" (s.targetValvePos0 : Int)) % 256).toNat) := by
  simp only [recieveStates]
  split_ifs <;> simp_all [setValve0_t0, setValve1_t0]

/-- The stored channel-1 target after a successful decode (lines 258, 265-266). -/
theorem recieveStates_target1 (s : MachineState) (doc : JsonDoc) :
    (recieveStates s (.parsed doc)).1.targetValvePos1 =
      (if getJsonKeyValueAsInt doc "targetValvePos1" (s.targetValvePos1 : Int) = (s.targetValvePos1 : Int)
       then s.targetValvePos1
       else ((getJsonKeyValueAsInt doc "targetValvePos1" (s.targetValvePos1 : Int)) % 256).toNat) := by
  simp only [recieveStates]
  split_ifs <;> simp_all [setValve1_t1, setValve0_t1]

/-- When the decoded channel-0 value equals the current target, no `setValve`
call is made for channel 0 and its run time and motor are untouched. -/
theorem recieveStates_ch0_preserved (s : MachineState) (doc : JsonDoc)
    (h : getJsonKeyValueAsInt doc "targetValvePos0" (s.targetValvePos0 : Int) = (s.targetValvePos0 : Int)) :
    (recieveStates s (.parsed doc)).1.targetValvePosMsec0 = s.targetValvePosMsec0 ∧
    (recieveStates s (.parsed doc)).1.motorState0 = s.motorState0 := by
  simp only [recieveStates]
  split_ifs <;> simp_all [setValve1_m0, setValve1_mot0]

/-- When the decoded channel-1 value equals the current target, no `setValve`
call is made for channel 1 and its run time and motor are untouched. -/
theorem recieveStates_ch1_preserved (s : MachineState) (doc : JsonDoc)
    (h : getJsonKeyValueAsInt doc "targetValvePos1" (s.targetValvePos1 : Int) = (s.targetValvePos1 : Int)) :
    (recieveStates s (.parsed doc)).1.targetValvePosMsec1 = s.targetValvePosMsec1 ∧
    (recieveStates s (.parsed doc)).1.motorState1 = s.motorState1 := by
  simp only [recieveStates]
  split_ifs <;> simp_all [setValve0_m1, setValve0_mot1]

/-- C5 (amended): the decoder is a sparse merge over exactly THREE recognized
fields — `targetValvePos0`, `targetValvePos1` and `reportInterval`.  For a
state satisfying the machine-integer invariants (targets are `uint8_t`, the
interval a `uint16_t` that passed the ≥ 1000 rule): an absent field keeps its
stored value (absent valve fields also leave that channel's run time and
motor untouched); a present integer field updates its stored value — valve
targets through the `uint8_t` cast (mod 256), the report interval through the
`uint16_t` cast (mod 65536) and the below-1000 default rule; and the decode
result depends on nothing but those three members, so any other member —
`mode` and `flowLimit` included — has no effect. -/
theorem decode_sparse_merge_three_fields (s : MachineState) (doc : JsonDoc)
    (h8a : s.targetValvePos0 < 256) (h8b : s.targetValvePos1 < 256)
    (h16 : s.reportInterval < 65536) (hri : 1000 ≤ s.reportInterval) :
    (getMember doc "targetValvePos0" = none →
       (recieveStates s (.parsed doc)).1.targetValvePos0 = s.targetValvePos0 ∧
       (recieveStates s (.parsed doc)).1.targetValvePosMsec0 = s.targetValvePosMsec0 ∧
       (recieveStates s (.parsed doc)).1.motorState0 = s.motorState0) ∧
    (∀ n : Int, getMember doc "targetValvePos0" = some n →
       (recieveStates s (.parsed doc)).1.targetValvePos0 = (n % 256).toNat) ∧
    (getMember doc "targetValvePos1" = none →
       (recieveStates s (.parsed doc)).1.targetValvePos1 = s.targetValvePos1 ∧
       (recieveStates s (.parsed doc)).1.targetValvePosMsec1 = s.targetValvePosMsec1 ∧
       (recieveStates s (.parsed doc)).1.motorState1 = s.motorState1) ∧
    (∀ n : Int, getMember doc "targetValvePos1" = some n →
       (recieveStates s (.parsed doc)).1.targetValvePos1 = (n % 256).toNat) ∧
    (getMember doc "reportInterval" = none →
       (recieveStates s (.parsed doc)).1.reportInterval = s.reportInterval) ∧
    (∀ n : Int, getMember doc "reportInterval" = some n →
       (recieveStates s (.parsed doc)).1.reportInterval =
         if 1000 ≤ (n % 65536).toNat then (n % 65536).toNat else C_REPORT_INTERVAL) ∧
    (∀ doc2 : JsonDoc,
       getMember doc2 "targetValvePos0" = getMember doc "targetValvePos0" →
       getMember doc2 "targetValvePos1" = getMember doc "targetValvePos1" →
       getMember doc2 "reportInterval" = getMember doc "reportInterval" →
       recieveStates s (.parsed doc2) = recieveStates s (.parsed doc)) := by
  refine ⟨fun h => ?_, fun n h => ?_, fun h => ?_, fun n h => ?_, fun h => ?_, fun n h => ?_,
          fun doc2 h1 h2 h3 => ?_⟩
  · have hd : getJsonKeyValueAsInt doc "targetValvePos0" (s.targetValvePos0 : Int) =
        (s.targetValvePos0 : Int) := by simp [getJsonKeyValueAsInt, h]
    refine ⟨?_, recieveStates_ch0_preserved s doc hd⟩
    rw [recieveStates_target0, if_pos hd]
  · have hd : getJsonKeyValueAsInt doc "targetValvePos0" (s.targetValvePos0 : Int) = n := by
      simp [getJsonKeyValueAsInt, h]
    rw [recieveStates_target0, hd]
    by_cases hn : n = (s.targetValvePos0 : Int)
    · rw [if_pos hn]; omega
    · rw [if_neg hn]
  · have hd : getJsonKeyValueAsInt doc "targetValvePos1" (s.targetValvePos1 : Int) =
        (s.targetValvePos1 : Int) := by simp [getJsonKeyValueAsInt, h]
    refine ⟨?_, recieveStates_ch1_preserved s doc hd⟩
    rw [recieveStates_target1, if_pos hd]
  · have hd : getJsonKeyValueAsInt doc "targetValvePos1" (s.targetValvePos1 : Int) = n := by
      simp [getJsonKeyValueAsInt, h]
    rw [recieveStates_target1, hd]
    by_cases hn : n = (s.targetValvePos1 : Int)
    · rw [if_pos hn]; omega
    · rw [if_neg hn]
  · have hd : getJsonKeyValueAsInt doc "reportInterval" (s.reportInterval : Int) =
        (s.reportInterval : Int) := by simp [getJsonKeyValueAsInt, h]
    rw [recieveStates_ri, hd]
    have he : (((s.reportInterval : Int)) % 65536).toNat = s.reportInterval := by omega
    rw [he, if_pos hri]
  · have hd : getJsonKeyValueAsInt doc "reportInterval" (s.reportInterval : Int) = n := by
      simp [getJsonKeyValueAsInt, h]
    rw [recieveStates_ri, hd]
  · simp only [recieveStates, getJsonKeyValueAsInt, h1, h2, h3]

/-- Witness for `decode_sparse_merge_three_fields`: decoding
`{"targetValvePos0": 50}` over `priorState` updates valve 0's target to 50
and leaves valve 1's target and the report interval unchanged. -/
theorem decode_sparse_merge_three_fields_witness :
    (recieveStates priorState (.parsed [("targetValvePos0", 50)])).1.targetValvePos0 =
      (((50 : Int)) % 256).toNat ∧
    (recieveStates priorState (.parsed [("targetValvePos0", 50)])).1.targetValvePos1 =
      priorState.targetValvePos1 ∧
    (recieveStates priorState (.parsed [("targetValvePos0", 50)])).1.reportInterval =
      priorState.reportInterval := by
  have h := decode_sparse_merge_three_fields priorState [("targetValvePos0", 50)]
    (by decide) (by decide) (by decide) (by decide)
  exact ⟨h.2.1 50 (by decide), (h.2.2.1 (by decide)).1, h.2.2.2.2.1 (by decide)⟩

/-- C5 counterexample: a frame carrying well-formed `mode` and `flowLimit`
fields changes NOTHING — the decode returns the state completely unchanged
and emits no frame, because `recieveStates` never reads those members and the
sketch has no stored `mode` or `flowLimit` variable at all; no "corresponding
stored value" is updated. -/
theorem decode_ignores_mode_and_flowLimit :
    recieveStates priorState (.parsed [("mode", 1), ("flowLimit", 7)]) = (priorState, []) := by
  decide

/-- C7 counterexample: a commanded `reportInterval` of -1 (a negative value,
hence "below 1000") is NOT replaced with the 4000 ms default: the assignment
to the `uint16_t` global wraps it to 65535, which passes the `>= 1000` check
and is stored. -/
theorem reportInterval_negative_wraps_kept :
    (recieveStates priorState (.parsed [("reportInterval", -1)])).1.reportInterval = 65535 ∧
    (65535 : Nat) ≠ 4000 := by
  decide

/-- C7 (amended): a commanded `reportInterval` value is first reduced by the
`uint16_t` conversion (mod 65536); the reduced value is stored if it is
≥ 1000 and replaced with the 4000 ms default otherwise.  In particular 500 is
replaced with 4000, but a negative value wraps (e.g. -1 → 65535) and is kept,
and a value ≥ 65536 is stored reduced. -/
theorem reportInterval_uint16_minimum_rule (s : MachineState) (v : Int) :
    (recieveStates s (.parsed [("reportInterval", v)])).1.reportInterval =
      (if 1000 ≤ (v % 65536).toNat then (v % 65536).toNat else C_REPORT_INTERVAL) := by
  rw [recieveStates_ri]
  have hd : getJsonKeyValueAsInt [("reportInterval", v)] "reportInterval"
      (s.reportInterval : Int) = v := by
    simp [getJsonKeyValueAsInt, getMember, List.find?]
  rw [hd]

/-- C8 counterexample: `updateFlowRate` with a zero window does NOT produce a
zero rate — it performs the float division `1000.0 / 0` anyway, yielding +inf
for a non-zero pulse count (and NaN for a zero count), neither of which is
the finite value 0. -/
theorem updateFlowRate_zero_window_not_zero :
    updateFlowRate 0 1 0 = (FVal.inf, FVal.nan) ∧
    FVal.inf ≠ FVal.fin 0 ∧ FVal.nan ≠ FVal.fin 0 := by
  refine ⟨?_, by simp, by simp⟩
  simp [updateFlowRate, FVal.div, FVal.mul, C_FLOW_CALIBRATION]
  norm_num

/-- C8 (amended): there is no zero-window guard in `updateFlowRate`.  For
every non-zero window the rate is the finite value
`(1000 / windowMillis) * pulseCount / C_FLOW_CALIBRATION` (evaluated in the
exact-arithmetic idealization of the float computation); for a zero window
the IEEE division produces +inf whenever the pulse count is non-zero and NaN
when it is zero — never the zero rate the claim requires. -/
theorem updateFlowRate_behaviour (w : Int) (c0 c1 : Nat) (hw : w ≠ 0) :
    updateFlowRate w c0 c1 =
      (FVal.fin (1000 / (w : ℚ) * (c0 : ℚ) / C_FLOW_CALIBRATION),
       FVal.fin (1000 / (w : ℚ) * (c1 : ℚ) / C_FLOW_CALIBRATION)) ∧
    updateFlowRate 0 (c0 + 1) (c1 + 1) = (FVal.inf, FVal.inf) ∧
    updateFlowRate 0 0 0 = (FVal.nan, FVal.nan) := by
  have hc0 : (0 : ℚ) < (c0 : ℚ) + 1 := by positivity
  have hc1 : (0 : ℚ) < (c1 : ℚ) + 1 := by positivity
  have hcal : (0 : ℚ) ≤ 771 / 100 := by norm_num
  refine ⟨?_, ?_, ?_⟩
  · have hw2 : ((w : ℚ)) ≠ 0 := Int.cast_ne_zero.mpr hw
    simp [updateFlowRate, FVal.div, FVal.mul, C_FLOW_CALIBRATION, hw2]
  · simp [updateFlowRate, FVal.div, FVal.mul, C_FLOW_CALIBRATION, hc0, hc1, hcal]
  · simp [updateFlowRate, FVal.div, FVal.mul, C_FLOW_CALIBRATION]

/-- Witness for `updateFlowRate_behaviour`: a 4000 ms window with 100 and 0
pulses gives the finite calibrated rates. -/
theorem updateFlowRate_behaviour_witness :
    updateFlowRate 4000 100 0 =
      (FVal.fin (1000 / ((4000 : Int) : ℚ) * ((100 : Nat) : ℚ) / C_FLOW_CALIBRATION),
       FVal.fin (1000 / ((4000 : Int) : ℚ) * ((0 : Nat) : ℚ) / C_FLOW_CALIBRATION)) :=
  (updateFlowRate_behaviour 4000 100 0 (by norm_num)).1

/-- C9: the flow pulse counter is an 8-bit value: after `n` interrupt firings
from a fresh counter it holds `n % 256`, so whenever more than 255 pulses
arrive in one window the sampled count under-reports the true count; and at
the documented maximum flow (35 L/min at 7.71 pulses/s per L/min) over the
default 4000 ms interval, more than 255 pulses accumulate. -/
theorem pulseCounter_wraps_mod_256 (n : Nat) :
    countAfter n = n % 256 ∧ (255 < n → countAfter n < n) ∧
    (255 : ℚ) < C_MAX_FLOW_RATE * C_FLOW_CALIBRATION * ((C_REPORT_INTERVAL : ℚ) / 1000) := by
  have h1 : countAfter n = n % 256 := by
    induction n with
    | zero => rfl
    | succ n ih => simp [countAfter, pulseInterrupt0, ih, Nat.mod_add_mod]
  refine ⟨h1, fun h => by omega, ?_⟩
  norm_num [C_MAX_FLOW_RATE, C_FLOW_CALIBRATION, C_REPORT_INTERVAL]

/-- Witness for `pulseCounter_wraps_mod_256` at n = 300 pulses. -/
theorem pulseCounter_wraps_mod_256_witness :
    countAfter 300 = 300 % 256 ∧ countAfter 300 < 300 ∧
    (255 : ℚ) < C_MAX_FLOW_RATE * C_FLOW_CALIBRATION * ((C_REPORT_INTERVAL : ℚ) / 1000) := by
  have h := pulseCounter_wraps_mod_256 300
  exact ⟨h.1, h.2.1 (by norm_num), h.2.2⟩

/-- C10: whether `updateSoilHumidity` updates any entry depends on the
indeterminate initial value of its uninitialized loop index (line 414,
`for(int i; ...)`):  with initial index 4 (or any value ≥ 4) the loop body
never runs, every entry keeps its stale value and the reported average is
computed from the stale data, while with initial index 0 all 16 entries are
freshly read and calibrated. -/
theorem updateSoilHumidity_depends_on_uninitialized_index :
    (∀ j, (updateSoilHumidity 4 adcReadsConst staleSoil).1 j = staleSoil j) ∧
    (updateSoilHumidity 4 adcReadsConst staleSoil).2 = 7 ∧
    (∀ j, (updateSoilHumidity 0 adcReadsConst staleSoil).1 j = 100) ∧
    (updateSoilHumidity 0 adcReadsConst staleSoil).2 = 100 ∧
    SOILCALIBRATION 9000 = 100 := by
  decide
